import Mathlib

/-!
Shallow embedding of `obp/ope/estimators.py` (zr-obp off-policy estimators).

Arrays indexed by round `t < T` are total functions `ℕ → ℚ`; `action_dist` and
`estimated_rewards_by_reg_model` of shape `(n_rounds, n_actions, len_list)` are
functions `ℕ → ℕ → ℕ → ℚ` applied as `t a p`.  Floats are embedded as exact
rationals; the possibly infinite hyperparameter `lambda_` is an `Option ℚ` with
`none` standing for `np.inf`.  Division is rational division (total, with
`x / 0 = 0`).
-/

namespace Obp

/-- Empirical mean of the first `T` entries: numpy `v.mean()` for a length-`T` vector. -/
def mean (T : ℕ) (f : ℕ → ℚ) : ℚ := (∑ t ∈ Finset.range T, f t) / T

/-- Importance weight `iw = action_dist[np.arange(n_rounds), action, position] / pscore`,
computed identically in `InverseProbabilityWeighting`, `SelfNormalizedInverseProbabilityWeighting`,
`DoublyRobust`, `SelfNormalizedDoublyRobust`, `SwitchDoublyRobust` and
`DoublyRobustWithShrinkage`. -/
def importanceWeight (action : ℕ → ℕ) (pscore : ℕ → ℚ)
    (actionDist : ℕ → ℕ → ℕ → ℚ) (position : ℕ → ℕ) (t : ℕ) : ℚ :=
  actionDist t (action t) (position t) / pscore t

/-- Weight clipping `np.minimum(iw, lambda_)`; `none` models `lambda_ = np.inf`,
under which `np.minimum` is the identity. -/
def clipMin : Option ℚ → ℚ → ℚ
  | none, w => w
  | some l, w => min w l

/-- numpy `np.average(values, weights=weights)` along an axis of length `nA`:
the weighted sum divided by the sum of the weights. -/
def npAverage (nA : ℕ) (values weights : ℕ → ℚ) : ℚ :=
  (∑ a ∈ Finset.range nA, weights a * values a) / (∑ a ∈ Finset.range nA, weights a)

/-- The model-based baseline term
`np.average(q_hat_at_position, weights=pi_e_at_position, axis=1)` computed (with identical
code) by `DirectMethod`, `DoublyRobust`, `SelfNormalizedDoublyRobust`, `SwitchDoublyRobust`
and `DoublyRobustWithShrinkage`. -/
def dmTerm (nA : ℕ) (actionDist qHat : ℕ → ℕ → ℕ → ℚ) (position : ℕ → ℕ) (t : ℕ) : ℚ :=
  npAverage nA (fun a => qHat t a (position t)) (fun a => actionDist t a (position t))

/-- Defaulting of an absent `position` argument:
`position = np.zeros(action_dist.shape[0], dtype=int)`. -/
def resolvePosition (position : Option (ℕ → ℕ)) : ℕ → ℕ :=
  position.getD fun _ => 0

/-- Indicator `action_dist[np.arange(n_rounds), action, position] == 1` used by
`ReplayMethod._estimate_round_rewards` (exact equality with 1, i.e. a deterministic
one-hot evaluation policy matching the logged action). -/
def rmMatchIndicator (action : ℕ → ℕ) (actionDist : ℕ → ℕ → ℕ → ℚ)
    (position : ℕ → ℕ) (t : ℕ) : ℚ :=
  if actionDist t (action t) (position t) = 1 then 1 else 0

/-- Number of matching rounds `action_match.sum()` in `ReplayMethod._estimate_round_rewards`. -/
def rmMatchSum (T : ℕ) (action : ℕ → ℕ) (actionDist : ℕ → ℕ → ℕ → ℚ)
    (position : ℕ → ℕ) : ℚ :=
  ∑ t ∈ Finset.range T, rmMatchIndicator action actionDist position t

/-- Body of `ReplayMethod._estimate_round_rewards` after position defaulting:
`action_match * reward / action_match.mean()` when `action_match.sum() > 0`,
otherwise the all-zero vector `np.zeros_like(action_match)`. -/
def rm_estimateRoundRewards (T : ℕ) (reward : ℕ → ℚ) (action : ℕ → ℕ)
    (actionDist : ℕ → ℕ → ℕ → ℚ) (position : ℕ → ℕ) : ℕ → ℚ :=
  if 0 < rmMatchSum T action actionDist position then
    fun t => rmMatchIndicator action actionDist position t * reward t
      / (rmMatchSum T action actionDist position / T)
  else fun _ => 0

/-- Body of `InverseProbabilityWeighting._estimate_round_rewards` after position
defaulting: `reward * np.minimum(iw, lambda_)`. -/
def ipw_estimateRoundRewards (lam : Option ℚ) (reward : ℕ → ℚ) (action : ℕ → ℕ)
    (pscore : ℕ → ℚ) (actionDist : ℕ → ℕ → ℕ → ℚ) (position : ℕ → ℕ) : ℕ → ℚ :=
  fun t => reward t * clipMin lam (importanceWeight action pscore actionDist position t)

/-- Body of `SelfNormalizedInverseProbabilityWeighting._estimate_round_rewards` after
position defaulting: `reward * iw / iw.mean()` (no clipping). -/
def snipw_estimateRoundRewards (T : ℕ) (reward : ℕ → ℚ) (action : ℕ → ℕ)
    (pscore : ℕ → ℚ) (actionDist : ℕ → ℕ → ℕ → ℚ) (position : ℕ → ℕ) : ℕ → ℚ :=
  fun t => reward t * importanceWeight action pscore actionDist position t
    / mean T (importanceWeight action pscore actionDist position)

/-- Body of `DirectMethod._estimate_round_rewards` after position defaulting:
`np.average(q_hat_at_position, weights=pi_e_at_position, axis=1)`. -/
def dm_estimateRoundRewards (nA : ℕ) (actionDist qHat : ℕ → ℕ → ℕ → ℚ)
    (position : ℕ → ℕ) : ℕ → ℚ :=
  fun t => dmTerm nA actionDist qHat position t

/-- Body of `DoublyRobust._estimate_round_rewards` after position defaulting:
the DM term plus `np.minimum(iw, lambda_) * (reward - q_hat_factual)`. -/
def dr_estimateRoundRewards (lam : Option ℚ) (nA : ℕ) (reward : ℕ → ℚ) (action : ℕ → ℕ)
    (pscore : ℕ → ℚ) (actionDist qHat : ℕ → ℕ → ℕ → ℚ) (position : ℕ → ℕ) : ℕ → ℚ :=
  fun t => dmTerm nA actionDist qHat position t
    + clipMin lam (importanceWeight action pscore actionDist position t)
      * (reward t - qHat t (action t) (position t))

/-- Body of `SelfNormalizedDoublyRobust._estimate_round_rewards` (which performs no
position defaulting): the DM term plus `iw * (reward - q_hat_factual) / iw.mean()`. -/
def sndr_estimateRoundRewards (T nA : ℕ) (reward : ℕ → ℚ) (action : ℕ → ℕ)
    (pscore : ℕ → ℚ) (actionDist qHat : ℕ → ℕ → ℕ → ℚ) (position : ℕ → ℕ) : ℕ → ℚ :=
  fun t => dmTerm nA actionDist qHat position t
    + importanceWeight action pscore actionDist position t
      * (reward t - qHat t (action t) (position t))
      / mean T (importanceWeight action pscore actionDist position)

/-- Switching indicator `np.array(iw <= self.lambda_, dtype=int)` of
`SwitchDoublyRobust._estimate_round_rewards`; `none` models `lambda_ = np.inf`
(where the comparison is always true). -/
def switchIndicator (lam : Option ℚ) (w : ℚ) : ℚ :=
  match lam with
  | none => 1
  | some l => if w ≤ l then 1 else 0

/-- Body of `SwitchDoublyRobust._estimate_round_rewards` (which performs no position
defaulting): the DM term plus `switch_indicator * iw * (reward - q_hat_factual)`. -/
def switchdr_estimateRoundRewards (lam : Option ℚ) (nA : ℕ) (reward : ℕ → ℚ)
    (action : ℕ → ℕ) (pscore : ℕ → ℚ) (actionDist qHat : ℕ → ℕ → ℕ → ℚ)
    (position : ℕ → ℕ) : ℕ → ℚ :=
  fun t => dmTerm nA actionDist qHat position t
    + switchIndicator lam (importanceWeight action pscore actionDist position t)
      * importanceWeight action pscore actionDist position t
      * (reward t - qHat t (action t) (position t))

/-- Shrunk weight of `DoublyRobustWithShrinkage._estimate_round_rewards`:
`(lambda_ * iw) / (iw ** 2 + lambda_)` when `self.lambda_ < np.inf`, otherwise the
raw importance weight. -/
def drosWeight : Option ℚ → ℚ → ℚ
  | some l, w => l * w / (w ^ 2 + l)
  | none, w => w

/-- Body of `DoublyRobustWithShrinkage._estimate_round_rewards` (which performs no
position defaulting): the DM term plus `iw_hat * (reward - q_hat_factual)`. -/
def dros_estimateRoundRewards (lam : Option ℚ) (nA : ℕ) (reward : ℕ → ℚ)
    (action : ℕ → ℕ) (pscore : ℕ → ℚ) (actionDist qHat : ℕ → ℕ → ℕ → ℚ)
    (position : ℕ → ℕ) : ℕ → ℚ :=
  fun t => dmTerm nA actionDist qHat position t
    + drosWeight lam (importanceWeight action pscore actionDist position t)
      * (reward t - qHat t (action t) (position t))

/-- Balanced importance weight of `BalancedInverseProbabilityWeighting`:
`action_dist[np.arange(n_rounds), action, position] * importance_sampling_ratio`,
then clipped at `lambda_`. -/
def bipwClippedWeight (lam : Option ℚ) (action : ℕ → ℕ) (rho : ℕ → ℚ)
    (actionDist : ℕ → ℕ → ℕ → ℚ) (position : ℕ → ℕ) (t : ℕ) : ℚ :=
  clipMin lam (actionDist t (action t) (position t) * rho t)

/-- Body of `BalancedInverseProbabilityWeighting._estimate_round_rewards` after position
defaulting: `reward * iw / iw.mean()` where `iw` is the clipped balanced weight. -/
def bipw_estimateRoundRewards (lam : Option ℚ) (T : ℕ) (reward : ℕ → ℚ)
    (action : ℕ → ℕ) (rho : ℕ → ℚ) (actionDist : ℕ → ℕ → ℕ → ℚ)
    (position : ℕ → ℕ) : ℕ → ℚ :=
  fun t => reward t * bipwClippedWeight lam action rho actionDist position t
    / mean T (bipwClippedWeight lam action rho actionDist position)

/-- Option-position wrapper of `ReplayMethod._estimate_round_rewards`: the source body
starts with `if position is None: position = np.zeros(...)`, so an absent position is
replaced by all zeros. -/
def rm_estimateRoundRewardsOpt (T : ℕ) (reward : ℕ → ℚ) (action : ℕ → ℕ)
    (actionDist : ℕ → ℕ → ℕ → ℚ) (position : Option (ℕ → ℕ)) : Option (ℕ → ℚ) :=
  some (rm_estimateRoundRewards T reward action actionDist (resolvePosition position))

/-- Option-position wrapper of `InverseProbabilityWeighting._estimate_round_rewards`:
an absent position is replaced by all zeros. -/
def ipw_estimateRoundRewardsOpt (lam : Option ℚ) (reward : ℕ → ℚ) (action : ℕ → ℕ)
    (pscore : ℕ → ℚ) (actionDist : ℕ → ℕ → ℕ → ℚ) (position : Option (ℕ → ℕ)) :
    Option (ℕ → ℚ) :=
  some (ipw_estimateRoundRewards lam reward action pscore actionDist
    (resolvePosition position))

/-- Option-position wrapper of
`SelfNormalizedInverseProbabilityWeighting._estimate_round_rewards`:
an absent position is replaced by all zeros. -/
def snipw_estimateRoundRewardsOpt (T : ℕ) (reward : ℕ → ℚ) (action : ℕ → ℕ)
    (pscore : ℕ → ℚ) (actionDist : ℕ → ℕ → ℕ → ℚ) (position : Option (ℕ → ℕ)) :
    Option (ℕ → ℚ) :=
  some (snipw_estimateRoundRewards T reward action pscore actionDist
    (resolvePosition position))

/-- Option-position wrapper of `DirectMethod._estimate_round_rewards`:
an absent position is replaced by all zeros. -/
def dm_estimateRoundRewardsOpt (nA : ℕ) (actionDist qHat : ℕ → ℕ → ℕ → ℚ)
    (position : Option (ℕ → ℕ)) : Option (ℕ → ℚ) :=
  some (dm_estimateRoundRewards nA actionDist qHat (resolvePosition position))

/-- Option-position wrapper of `DoublyRobust._estimate_round_rewards`:
an absent position is replaced by all zeros. -/
def dr_estimateRoundRewardsOpt (lam : Option ℚ) (nA : ℕ) (reward : ℕ → ℚ)
    (action : ℕ → ℕ) (pscore : ℕ → ℚ) (actionDist qHat : ℕ → ℕ → ℕ → ℚ)
    (position : Option (ℕ → ℕ)) : Option (ℕ → ℚ) :=
  some (dr_estimateRoundRewards lam nA reward action pscore actionDist qHat
    (resolvePosition position))

/-- Option-position wrapper of `BalancedInverseProbabilityWeighting._estimate_round_rewards`:
an absent position is replaced by all zeros. -/
def bipw_estimateRoundRewardsOpt (lam : Option ℚ) (T : ℕ) (reward : ℕ → ℚ)
    (action : ℕ → ℕ) (rho : ℕ → ℚ) (actionDist : ℕ → ℕ → ℕ → ℚ)
    (position : Option (ℕ → ℕ)) : Option (ℕ → ℚ) :=
  some (bipw_estimateRoundRewards lam T reward action rho actionDist
    (resolvePosition position))

/-- Option-position wrapper of `SelfNormalizedDoublyRobust._estimate_round_rewards`:
the source body contains no `if position is None` defaulting and immediately indexes
`action_dist[np.arange(n_rounds), action, position]`, which for `position = None` does
not produce a per-round reward vector of shape `(n_rounds,)`; the `none` case is
therefore not well-defined and is modelled as `none`. -/
def sndr_estimateRoundRewardsOpt (T nA : ℕ) (reward : ℕ → ℚ) (action : ℕ → ℕ)
    (pscore : ℕ → ℚ) (actionDist qHat : ℕ → ℕ → ℕ → ℚ) (position : Option (ℕ → ℕ)) :
    Option (ℕ → ℚ) :=
  match position with
  | none => none
  | some p => some (sndr_estimateRoundRewards T nA reward action pscore actionDist qHat p)

/-- Option-position wrapper of `SwitchDoublyRobust._estimate_round_rewards`: as for SNDR,
the source performs no position defaulting, so the `none` case is not well-defined. -/
def switchdr_estimateRoundRewardsOpt (lam : Option ℚ) (nA : ℕ) (reward : ℕ → ℚ)
    (action : ℕ → ℕ) (pscore : ℕ → ℚ) (actionDist qHat : ℕ → ℕ → ℕ → ℚ)
    (position : Option (ℕ → ℕ)) : Option (ℕ → ℚ) :=
  match position with
  | none => none
  | some p =>
    some (switchdr_estimateRoundRewards lam nA reward action pscore actionDist qHat p)

/-- Option-position wrapper of `DoublyRobustWithShrinkage._estimate_round_rewards`: as for
SNDR, the source performs no position defaulting, so the `none` case is not well-defined. -/
def dros_estimateRoundRewardsOpt (lam : Option ℚ) (nA : ℕ) (reward : ℕ → ℚ)
    (action : ℕ → ℕ) (pscore : ℕ → ℚ) (actionDist qHat : ℕ → ℕ → ℕ → ℚ)
    (position : Option (ℕ → ℕ)) : Option (ℕ → ℚ) :=
  match position with
  | none => none
  | some p =>
    some (dros_estimateRoundRewards lam nA reward action pscore actionDist qHat p)

/-- Modelled from the spec: `check_ope_inputs` (from `obp.utils`) is consumed by the
estimators but its source is not under `src/`.  Per §7 of the spec it rejects, before any
computation proceeds: positions out of range, actions out of range, propensities outside
the domain `0 < pscore ≤ 1`, importance sampling ratios that are not positive, and an
`action_dist` with entries outside `[0, 1]` or with a slice `[t, :, p]` not summing to 1.
Arguments the respective caller does not pass are `none` here and are not checked. -/
def check_ope_inputs (T nA nP : ℕ) (actionDist : ℕ → ℕ → ℕ → ℚ)
    (position : Option (ℕ → ℕ)) (action : Option (ℕ → ℕ))
    (pscore : Option (ℕ → ℚ)) (rho : Option (ℕ → ℚ)) : Bool :=
  (match position with
    | none => true
    | some p => (List.range T).all fun t => decide (p t < nP)) &&
  (match action with
    | none => true
    | some a => (List.range T).all fun t => decide (a t < nA)) &&
  (match pscore with
    | none => true
    | some ps => (List.range T).all fun t => decide (0 < ps t) && decide (ps t ≤ 1)) &&
  (match rho with
    | none => true
    | some r => (List.range T).all fun t => decide (0 < r t)) &&
  ((List.range T).all fun t => (List.range nP).all fun p =>
    decide ((∑ a ∈ Finset.range nA, actionDist t a p) = 1) &&
    ((List.range nA).all fun a =>
      decide (0 ≤ actionDist t a p) && decide (actionDist t a p ≤ 1)))

/-- Result `none` models a raised validation exception; `some v` a returned scalar. -/
abbrev PyFloat := Option ℚ

/-- `ReplayMethod.estimate_policy_value`: validates via `check_array`/`check_ope_inputs`
(array ranks hold by typing here), defaults an absent `position` to zeros, and returns
the mean of `_estimate_round_rewards`. -/
def rm_estimatePolicyValue (T nA nP : ℕ) (reward : ℕ → ℚ) (action : ℕ → ℕ)
    (actionDist : ℕ → ℕ → ℕ → ℚ) (position : Option (ℕ → ℕ)) : PyFloat :=
  if check_ope_inputs T nA nP actionDist position (some action) none none then
    some (mean T (rm_estimateRoundRewards T reward action actionDist
      (resolvePosition position)))
  else none

/-- Shared body of `estimate_policy_value` for the estimators carrying a
`use_estimated_pscore` flag (`InverseProbabilityWeighting` and `DoublyRobust`, inherited
by SNIPW, SNDR, Switch-DR and DRos): select `estimated_pscore` or `pscore` per the flag
(`check_array` on a `None` selection raises), validate, default position, and return the
mean of the subclass round-reward method `rr` at the selected pscore and position. -/
def pscoreFamilyPolicyValue (T nA nP : ℕ) (useEst : Bool) (action : ℕ → ℕ)
    (ps eps : Option (ℕ → ℚ)) (actionDist : ℕ → ℕ → ℕ → ℚ)
    (position : Option (ℕ → ℕ)) (rr : (ℕ → ℚ) → (ℕ → ℕ) → ℕ → ℚ) : PyFloat :=
  match (if useEst then eps else ps) with
  | none => none
  | some psc =>
    if check_ope_inputs T nA nP actionDist position (some action) (some psc) none then
      some (mean T (rr psc (resolvePosition position)))
    else none

/-- `InverseProbabilityWeighting.estimate_policy_value`. -/
def ipw_estimatePolicyValue (lam : Option ℚ) (useEst : Bool) (T nA nP : ℕ)
    (reward : ℕ → ℚ) (action : ℕ → ℕ) (ps eps : Option (ℕ → ℚ))
    (actionDist : ℕ → ℕ → ℕ → ℚ) (position : Option (ℕ → ℕ)) : PyFloat :=
  pscoreFamilyPolicyValue T nA nP useEst action ps eps actionDist position
    (fun psc pos => ipw_estimateRoundRewards lam reward action psc actionDist pos)

/-- `estimate_policy_value` of `SelfNormalizedInverseProbabilityWeighting` (the method is
inherited unchanged from IPW; dynamic dispatch selects the SNIPW round-reward method). -/
def snipw_estimatePolicyValue (useEst : Bool) (T nA nP : ℕ) (reward : ℕ → ℚ)
    (action : ℕ → ℕ) (ps eps : Option (ℕ → ℚ)) (actionDist : ℕ → ℕ → ℕ → ℚ)
    (position : Option (ℕ → ℕ)) : PyFloat :=
  pscoreFamilyPolicyValue T nA nP useEst action ps eps actionDist position
    (fun psc pos => snipw_estimateRoundRewards T reward action psc actionDist pos)

/-- `DirectMethod.estimate_policy_value`: validates (no `action`/`pscore` are passed to
`check_ope_inputs`), defaults position, and returns the mean of the DM round rewards. -/
def dm_estimatePolicyValue (T nA nP : ℕ) (actionDist qHat : ℕ → ℕ → ℕ → ℚ)
    (position : Option (ℕ → ℕ)) : PyFloat :=
  if check_ope_inputs T nA nP actionDist position none none none then
    some (mean T (dm_estimateRoundRewards nA actionDist qHat (resolvePosition position)))
  else none

/-- `DoublyRobust.estimate_policy_value`. -/
def dr_estimatePolicyValue (lam : Option ℚ) (useEst : Bool) (T nA nP : ℕ)
    (reward : ℕ → ℚ) (action : ℕ → ℕ) (ps eps : Option (ℕ → ℚ))
    (actionDist qHat : ℕ → ℕ → ℕ → ℚ) (position : Option (ℕ → ℕ)) : PyFloat :=
  pscoreFamilyPolicyValue T nA nP useEst action ps eps actionDist position
    (fun psc pos => dr_estimateRoundRewards lam nA reward action psc actionDist qHat pos)

/-- `estimate_policy_value` of `SelfNormalizedDoublyRobust` (inherited from DR). -/
def sndr_estimatePolicyValue (useEst : Bool) (T nA nP : ℕ) (reward : ℕ → ℚ)
    (action : ℕ → ℕ) (ps eps : Option (ℕ → ℚ)) (actionDist qHat : ℕ → ℕ → ℕ → ℚ)
    (position : Option (ℕ → ℕ)) : PyFloat :=
  pscoreFamilyPolicyValue T nA nP useEst action ps eps actionDist position
    (fun psc pos => sndr_estimateRoundRewards T nA reward action psc actionDist qHat pos)

/-- `estimate_policy_value` of `SwitchDoublyRobust` (inherited from DR). -/
def switchdr_estimatePolicyValue (lam : Option ℚ) (useEst : Bool) (T nA nP : ℕ)
    (reward : ℕ → ℚ) (action : ℕ → ℕ) (ps eps : Option (ℕ → ℚ))
    (actionDist qHat : ℕ → ℕ → ℕ → ℚ) (position : Option (ℕ → ℕ)) : PyFloat :=
  pscoreFamilyPolicyValue T nA nP useEst action ps eps actionDist position
    (fun psc pos =>
      switchdr_estimateRoundRewards lam nA reward action psc actionDist qHat pos)

/-- `estimate_policy_value` of `DoublyRobustWithShrinkage` (inherited from DR). -/
def dros_estimatePolicyValue (lam : Option ℚ) (useEst : Bool) (T nA nP : ℕ)
    (reward : ℕ → ℚ) (action : ℕ → ℕ) (ps eps : Option (ℕ → ℚ))
    (actionDist qHat : ℕ → ℕ → ℕ → ℚ) (position : Option (ℕ → ℕ)) : PyFloat :=
  pscoreFamilyPolicyValue T nA nP useEst action ps eps actionDist position
    (fun psc pos => dros_estimateRoundRewards lam nA reward action psc actionDist qHat pos)

/-- `BalancedInverseProbabilityWeighting.estimate_policy_value`: the source only calls
`check_array` on `reward`, `action` and `importance_sampling_ratio` (rank checks, which
hold by typing here) and does NOT call `check_ope_inputs`; it then defaults position and
returns the mean of the round rewards unconditionally. -/
def bipw_estimatePolicyValue (lam : Option ℚ) (T nA nP : ℕ) (reward : ℕ → ℚ)
    (action : ℕ → ℕ) (rho : ℕ → ℚ) (actionDist : ℕ → ℕ → ℕ → ℚ)
    (position : Option (ℕ → ℕ)) : PyFloat :=
  some (mean T (bipw_estimateRoundRewards lam T reward action rho actionDist
    (resolvePosition position)))

/-- Arguments each `estimate_interval` passes to the external bootstrap helper
`estimate_confidence_interval_by_bootstrap` (the helper itself and the `random_state`
seed it consumes are outside the estimator core). -/
structure BootstrapCall where
  samples : ℕ → ℚ
  sampleSize : ℕ
  alpha : ℚ
  nBootstrap : ℕ

/-- `ReplayMethod.estimate_interval`: validates, defaults position, and hands the round
rewards to the bootstrap helper.  Keyword defaults of the source signature:
`alpha = 0.05` and `n_bootstrap_samples = 100`. -/
def rm_estimateInterval (T nA nP : ℕ) (reward : ℕ → ℚ) (action : ℕ → ℕ)
    (actionDist : ℕ → ℕ → ℕ → ℚ) (position : Option (ℕ → ℕ))
    (alpha : Option ℚ) (nBootstrap : Option ℕ) : Option BootstrapCall :=
  if check_ope_inputs T nA nP actionDist position (some action) none none then
    some { samples := rm_estimateRoundRewards T reward action actionDist
             (resolvePosition position)
           sampleSize := T
           alpha := alpha.getD (1 / 20)
           nBootstrap := nBootstrap.getD 100 }
  else none

/-- Shared body of `estimate_interval` for the flag-carrying estimators (IPW and DR, the
method being inherited by SNIPW, SNDR, Switch-DR and DRos).  Keyword defaults of both
source signatures: `alpha = 0.05` and `n_bootstrap_samples = 10000`. -/
def pscoreFamilyInterval (T nA nP : ℕ) (useEst : Bool) (action : ℕ → ℕ)
    (ps eps : Option (ℕ → ℚ)) (actionDist : ℕ → ℕ → ℕ → ℚ)
    (position : Option (ℕ → ℕ)) (alpha : Option ℚ) (nBootstrap : Option ℕ)
    (rr : (ℕ → ℚ) → (ℕ → ℕ) → ℕ → ℚ) : Option BootstrapCall :=
  match (if useEst then eps else ps) with
  | none => none
  | some psc =>
    if check_ope_inputs T nA nP actionDist position (some action) (some psc) none then
      some { samples := rr psc (resolvePosition position)
             sampleSize := T
             alpha := alpha.getD (1 / 20)
             nBootstrap := nBootstrap.getD 10000 }
    else none

/-- `InverseProbabilityWeighting.estimate_interval`. -/
def ipw_estimateInterval (lam : Option ℚ) (useEst : Bool) (T nA nP : ℕ)
    (reward : ℕ → ℚ) (action : ℕ → ℕ) (ps eps : Option (ℕ → ℚ))
    (actionDist : ℕ → ℕ → ℕ → ℚ) (position : Option (ℕ → ℕ))
    (alpha : Option ℚ) (nBootstrap : Option ℕ) : Option BootstrapCall :=
  pscoreFamilyInterval T nA nP useEst action ps eps actionDist position alpha nBootstrap
    (fun psc pos => ipw_estimateRoundRewards lam reward action psc actionDist pos)

/-- `estimate_interval` of SNIPW (inherited from IPW). -/
def snipw_estimateInterval (useEst : Bool) (T nA nP : ℕ) (reward : ℕ → ℚ)
    (action : ℕ → ℕ) (ps eps : Option (ℕ → ℚ)) (actionDist : ℕ → ℕ → ℕ → ℚ)
    (position : Option (ℕ → ℕ)) (alpha : Option ℚ) (nBootstrap : Option ℕ) :
    Option BootstrapCall :=
  pscoreFamilyInterval T nA nP useEst action ps eps actionDist position alpha nBootstrap
    (fun psc pos => snipw_estimateRoundRewards T reward action psc actionDist pos)

/-- `DirectMethod.estimate_interval`; keyword defaults `alpha = 0.05`,
`n_bootstrap_samples = 10000`. -/
def dm_estimateInterval (T nA nP : ℕ) (actionDist qHat : ℕ → ℕ → ℕ → ℚ)
    (position : Option (ℕ → ℕ)) (alpha : Option ℚ) (nBootstrap : Option ℕ) :
    Option BootstrapCall :=
  if check_ope_inputs T nA nP actionDist position none none none then
    some { samples := dm_estimateRoundRewards nA actionDist qHat (resolvePosition position)
           sampleSize := T
           alpha := alpha.getD (1 / 20)
           nBootstrap := nBootstrap.getD 10000 }
  else none

/-- `DoublyRobust.estimate_interval`. -/
def dr_estimateInterval (lam : Option ℚ) (useEst : Bool) (T nA nP : ℕ)
    (reward : ℕ → ℚ) (action : ℕ → ℕ) (ps eps : Option (ℕ → ℚ))
    (actionDist qHat : ℕ → ℕ → ℕ → ℚ) (position : Option (ℕ → ℕ))
    (alpha : Option ℚ) (nBootstrap : Option ℕ) : Option BootstrapCall :=
  pscoreFamilyInterval T nA nP useEst action ps eps actionDist position alpha nBootstrap
    (fun psc pos => dr_estimateRoundRewards lam nA reward action psc actionDist qHat pos)

/-- `estimate_interval` of SNDR (inherited from DR). -/
def sndr_estimateInterval (useEst : Bool) (T nA nP : ℕ) (reward : ℕ → ℚ)
    (action : ℕ → ℕ) (ps eps : Option (ℕ → ℚ)) (actionDist qHat : ℕ → ℕ → ℕ → ℚ)
    (position : Option (ℕ → ℕ)) (alpha : Option ℚ) (nBootstrap : Option ℕ) :
    Option BootstrapCall :=
  pscoreFamilyInterval T nA nP useEst action ps eps actionDist position alpha nBootstrap
    (fun psc pos => sndr_estimateRoundRewards T nA reward action psc actionDist qHat pos)

/-- `estimate_interval` of Switch-DR (inherited from DR). -/
def switchdr_estimateInterval (lam : Option ℚ) (useEst : Bool) (T nA nP : ℕ)
    (reward : ℕ → ℚ) (action : ℕ → ℕ) (ps eps : Option (ℕ → ℚ))
    (actionDist qHat : ℕ → ℕ → ℕ → ℚ) (position : Option (ℕ → ℕ))
    (alpha : Option ℚ) (nBootstrap : Option ℕ) : Option BootstrapCall :=
  pscoreFamilyInterval T nA nP useEst action ps eps actionDist position alpha nBootstrap
    (fun psc pos =>
      switchdr_estimateRoundRewards lam nA reward action psc actionDist qHat pos)

/-- `estimate_interval` of DRos (inherited from DR). -/
def dros_estimateInterval (lam : Option ℚ) (useEst : Bool) (T nA nP : ℕ)
    (reward : ℕ → ℚ) (action : ℕ → ℕ) (ps eps : Option (ℕ → ℚ))
    (actionDist qHat : ℕ → ℕ → ℕ → ℚ) (position : Option (ℕ → ℕ))
    (alpha : Option ℚ) (nBootstrap : Option ℕ) : Option BootstrapCall :=
  pscoreFamilyInterval T nA nP useEst action ps eps actionDist position alpha nBootstrap
    (fun psc pos => dros_estimateRoundRewards lam nA reward action psc actionDist qHat pos)

/-- `BalancedInverseProbabilityWeighting.estimate_interval`: unlike the corresponding
`estimate_policy_value`, this method does call `check_ope_inputs` (with the importance
sampling ratio).  Keyword defaults `alpha = 0.05`, `n_bootstrap_samples = 10000`. -/
def bipw_estimateInterval (lam : Option ℚ) (T nA nP : ℕ) (reward : ℕ → ℚ)
    (action : ℕ → ℕ) (rho : ℕ → ℚ) (actionDist : ℕ → ℕ → ℕ → ℚ)
    (position : Option (ℕ → ℕ)) (alpha : Option ℚ) (nBootstrap : Option ℕ) :
    Option BootstrapCall :=
  if check_ope_inputs T nA nP actionDist position (some action) none (some rho) then
    some { samples := bipw_estimateRoundRewards lam T reward action rho actionDist
             (resolvePosition position)
           sampleSize := T
           alpha := alpha.getD (1 / 20)
           nBootstrap := nBootstrap.getD 10000 }
  else none

/-- A Python scalar value as received by the dataclass fields at construction time. -/
inductive PyVal where
  | int (n : ℤ)
  | float (q : ℚ)
  | inf
  | nan
  | bool (b : Bool)
  | str (s : String)

/-- Python `isinstance(x, (int, float))`; `bool` is a subclass of `int` and `nan`/`inf`
are floats. -/
def isNumeric : PyVal → Bool
  | .int _ => true
  | .float _ => true
  | .inf => true
  | .nan => true
  | .bool _ => true
  | .str _ => false

/-- Python comparison `x < 0` for the values `isNumeric` accepts; the comparison is
false for `nan` (which is why the source adds a separate nan test) and for `inf`, and
`False < 0`/`True < 0` are false since Python booleans are 0 and 1. -/
def pyLt0 : PyVal → Bool
  | .int n => decide (n < 0)
  | .float q => decide (q < 0)
  | .inf => false
  | .nan => false
  | .bool _ => false
  | .str _ => false

/-- The source's nan test `self.lambda_ != self.lambda_`. -/
def isNanVal : PyVal → Bool
  | .nan => true
  | _ => false

/-- Python `isinstance(x, bool)`. -/
def isPyBool : PyVal → Bool
  | .bool _ => true
  | _ => false

/-- Modelled from the spec: sklearn's `check_scalar(lambda_, target_type=(int, float),
min_val=0.0)` is an external collaborator whose source is not under `src/`; per §7 a
`lambda_` that is negative or of wrong type is rejected immediately (the nan case
slips through the `min_val` comparison and is caught by the source's own nan test). -/
def checkScalarLambda (v : PyVal) : Bool :=
  isNumeric v && !pyLt0 v

/-- `InverseProbabilityWeighting.__post_init__` (`true` = construction succeeds,
`false` = an exception is raised): `check_scalar` on `lambda_`, the nan test, and
`isinstance(self.use_estimated_pscore, bool)`. -/
def ipw_postInit (lambda_ useEstimatedPscore : PyVal) : Bool :=
  checkScalarLambda lambda_ && !isNanVal lambda_ && isPyBool useEstimatedPscore

/-- `DoublyRobust.__post_init__`: same three checks as IPW (also run, via inheritance,
when constructing SNIPW and SNDR, which do not override `__post_init__`). -/
def dr_postInit (lambda_ useEstimatedPscore : PyVal) : Bool :=
  checkScalarLambda lambda_ && !isNanVal lambda_ && isPyBool useEstimatedPscore

/-- `SwitchDoublyRobust.__post_init__` (overriding DR's): only the `lambda_` checks run;
the inherited `use_estimated_pscore` field is NOT validated. -/
def switchdr_postInit (lambda_ useEstimatedPscore : PyVal) : Bool :=
  checkScalarLambda lambda_ && !isNanVal lambda_

/-- `DoublyRobustWithShrinkage.__post_init__` (overriding DR's): only the `lambda_`
checks run; the inherited `use_estimated_pscore` field is NOT validated. -/
def dros_postInit (lambda_ useEstimatedPscore : PyVal) : Bool :=
  checkScalarLambda lambda_ && !isNanVal lambda_

/-- `BalancedInverseProbabilityWeighting.__post_init__`: the `lambda_` checks (this
class has no `use_estimated_pscore` field). -/
def bipw_postInit (lambda_ : PyVal) : Bool :=
  checkScalarLambda lambda_ && !isNanVal lambda_

/-- Rewards `[1, 0, 1]` of the concrete three-round scenario of §8 of the spec. -/
def exReward : ℕ → ℚ := fun t => if t = 0 then 1 else if t = 1 then 0 else 1

/-- Logged actions `[0, 1, 0]` of the concrete scenario. -/
def exAction : ℕ → ℕ := fun t => if t = 1 then 1 else 0

/-- Behavior propensities `[0.5, 0.5, 0.5]` of the concrete scenario. -/
def exPscore : ℕ → ℚ := fun _ => 1 / 2

/-- Evaluation-policy distribution of the concrete scenario: one-hot at the logged
action in every round (`[[1,0]], [[0,1]], [[1,0]]` with one position). -/
def exActionDist : ℕ → ℕ → ℕ → ℚ := fun t a _ => if a = exAction t then 1 else 0

/-- Claim C2: the IPW per-round pseudo-reward is `reward[t] * min(lambda_, iw[t])` with
`iw[t] = action_dist[t, action[t], position[t]] / pscore[t]` (no clipping when
`lambda_ = inf`), and on the concrete batch T=3, reward=[1,0,1], action=[0,1,0],
pscore=[.5,.5,.5], one-hot action_dist and `lambda_ = inf`, the round rewards are
[2, 0, 2] and `estimate_policy_value` returns 4/3. -/
theorem claim_C2_ipw_round_rewards_and_scenario :
    (∀ (l : ℚ) (reward : ℕ → ℚ) (action : ℕ → ℕ) (pscore : ℕ → ℚ)
        (actionDist : ℕ → ℕ → ℕ → ℚ) (position : ℕ → ℕ) (t : ℕ),
      ipw_estimateRoundRewards (some l) reward action pscore actionDist position t
        = reward t * min l (actionDist t (action t) (position t) / pscore t))
    ∧ (∀ (reward : ℕ → ℚ) (action : ℕ → ℕ) (pscore : ℕ → ℚ)
        (actionDist : ℕ → ℕ → ℕ → ℚ) (position : ℕ → ℕ) (t : ℕ),
      ipw_estimateRoundRewards none reward action pscore actionDist position t
        = reward t * (actionDist t (action t) (position t) / pscore t))
    ∧ ipw_estimateRoundRewards none exReward exAction exPscore exActionDist (fun _ => 0) 0 = 2
    ∧ ipw_estimateRoundRewards none exReward exAction exPscore exActionDist (fun _ => 0) 1 = 0
    ∧ ipw_estimateRoundRewards none exReward exAction exPscore exActionDist (fun _ => 0) 2 = 2
    ∧ ipw_estimatePolicyValue none false 3 2 1 exReward exAction (some exPscore) none
        exActionDist none = some (4 / 3) := by
  refine ⟨?_, ?_, ?_, ?_, ?_, ?_⟩
  · intro l reward action pscore actionDist position t
    rw [ipw_estimateRoundRewards, clipMin, importanceWeight, min_comm]
  · intro reward action pscore actionDist position t
    rfl
  · norm_num [ipw_estimateRoundRewards, clipMin, importanceWeight, exReward, exAction,
      exPscore, exActionDist]
  · norm_num [ipw_estimateRoundRewards, clipMin, importanceWeight, exReward, exAction,
      exPscore, exActionDist]
  · norm_num [ipw_estimateRoundRewards, clipMin, importanceWeight, exReward, exAction,
      exPscore, exActionDist]
  · rw [ipw_estimatePolicyValue, pscoreFamilyPolicyValue]
    norm_num [check_ope_inputs, List.range_succ, exActionDist, exAction, exPscore,
      Finset.sum_range_succ, mean, ipw_estimateRoundRewards, clipMin, importanceWeight,
      resolvePosition, exReward]

/-- Claim C3: on identical inputs, Switch-DR with `lambda_ = 0` produces exactly the
Direct Method round-reward vector (given the data-model invariants that the evaluation
probabilities are nonnegative and propensities positive), and Switch-DR with
`lambda_ = inf` produces exactly the unclipped Doubly Robust round-reward vector. -/
theorem claim_C3_switchdr_equals_dm_and_dr (nA : ℕ) (reward : ℕ → ℚ) (action : ℕ → ℕ)
    (pscore : ℕ → ℚ) (actionDist qHat : ℕ → ℕ → ℕ → ℚ) (position : ℕ → ℕ)
    (had : ∀ t, 0 ≤ actionDist t (action t) (position t))
    (hps : ∀ t, 0 < pscore t) :
    (∀ t, switchdr_estimateRoundRewards (some 0) nA reward action pscore actionDist qHat
        position t = dm_estimateRoundRewards nA actionDist qHat position t)
    ∧ (∀ t, switchdr_estimateRoundRewards none nA reward action pscore actionDist qHat
        position t
      = dr_estimateRoundRewards none nA reward action pscore actionDist qHat position t) := by
  constructor
  · intro t
    have hiw : 0 ≤ importanceWeight action pscore actionDist position t :=
      div_nonneg (had t) (hps t).le
    by_cases hle : importanceWeight action pscore actionDist position t ≤ 0
    · have h0 : importanceWeight action pscore actionDist position t = 0 :=
        le_antisymm hle hiw
      simp [switchdr_estimateRoundRewards, dm_estimateRoundRewards, switchIndicator, h0]
    · simp [switchdr_estimateRoundRewards, dm_estimateRoundRewards, switchIndicator, hle]
  · intro t
    simp [switchdr_estimateRoundRewards, dr_estimateRoundRewards, switchIndicator, clipMin]

/-- Witness for claim C3 at a concrete input (one action, unit propensities, one-hot
evaluation policy, zero reward model). -/
theorem claim_C3_witness :
    (∀ _t : ℕ, (0 : ℚ) ≤ 1) ∧ (∀ _t : ℕ, (0 : ℚ) < 1)
    ∧ ((∀ t, switchdr_estimateRoundRewards (some 0) 1 (fun _ => 1) (fun _ => 0)
          (fun _ => 1) (fun _ _ _ => 1) (fun _ _ _ => 0) (fun _ => 0) t
        = dm_estimateRoundRewards 1 (fun _ _ _ => 1) (fun _ _ _ => 0) (fun _ => 0) t)
      ∧ (∀ t, switchdr_estimateRoundRewards none 1 (fun _ => 1) (fun _ => 0)
          (fun _ => 1) (fun _ _ _ => 1) (fun _ _ _ => 0) (fun _ => 0) t
        = dr_estimateRoundRewards none 1 (fun _ => 1) (fun _ => 0) (fun _ => 1)
            (fun _ _ _ => 1) (fun _ _ _ => 0) (fun _ => 0) t)) :=
  ⟨fun _ => by norm_num, fun _ => by norm_num,
    claim_C3_switchdr_equals_dm_and_dr 1 (fun _ => 1) (fun _ => 0) (fun _ => 1)
      (fun _ _ _ => 1) (fun _ _ _ => 0) (fun _ => 0)
      (fun _ => by norm_num) (fun _ => by norm_num)⟩

/-- Claim C4: the DRos correction weight is `lambda_ * w / (w^2 + lambda_)` for finite
`lambda_` and the raw importance weight `w` for `lambda_ = inf`; consequently with
`lambda_ = 0` every DRos round reward equals the Direct Method round reward on the same
inputs. -/
theorem claim_C4_dros_shrunk_weight :
    (∀ l w : ℚ, drosWeight (some l) w = l * w / (w ^ 2 + l))
    ∧ (∀ w : ℚ, drosWeight none w = w)
    ∧ (∀ (nA : ℕ) (reward : ℕ → ℚ) (action : ℕ → ℕ) (pscore : ℕ → ℚ)
        (actionDist qHat : ℕ → ℕ → ℕ → ℚ) (position : ℕ → ℕ) (t : ℕ),
      dros_estimateRoundRewards (some 0) nA reward action pscore actionDist qHat position t
        = dm_estimateRoundRewards nA actionDist qHat position t) := by
  refine ⟨fun l w => rfl, fun w => rfl, ?_⟩
  intro nA reward action pscore actionDist qHat position t
  simp [dros_estimateRoundRewards, dm_estimateRoundRewards, drosWeight]

/-- Claim C5: for SNIPW, every round reward is `reward[t] * w[t]` divided by the single
normalizer `mean(w)` (with the unclipped weight `w`), and whenever `mean(w)` is nonzero
the mean of the round-reward vector equals the ratio of sums
`(Σ_t reward[t]·w[t]) / (Σ_t w[t])`. -/
theorem claim_C5_snipw_ratio_of_sums (T : ℕ) (reward : ℕ → ℚ) (action : ℕ → ℕ)
    (pscore : ℕ → ℚ) (actionDist : ℕ → ℕ → ℕ → ℚ) (position : ℕ → ℕ)
    (h : mean T (importanceWeight action pscore actionDist position) ≠ 0) :
    (∀ t, snipw_estimateRoundRewards T reward action pscore actionDist position t
      = reward t * importanceWeight action pscore actionDist position t
        / mean T (importanceWeight action pscore actionDist position))
    ∧ mean T (snipw_estimateRoundRewards T reward action pscore actionDist position)
      = (∑ t ∈ Finset.range T,
          reward t * importanceWeight action pscore actionDist position t)
        / (∑ t ∈ Finset.range T, importanceWeight action pscore actionDist position t) := by
  refine ⟨fun t => rfl, ?_⟩
  have hT : (T : ℚ) ≠ 0 := by
    intro h0
    exact h (by simp [mean, h0])
  have key : mean T (importanceWeight action pscore actionDist position) * T
      = ∑ t ∈ Finset.range T, importanceWeight action pscore actionDist position t := by
    rw [mean, div_mul_cancel₀ _ hT]
  calc mean T (snipw_estimateRoundRewards T reward action pscore actionDist position)
      = (∑ t ∈ Finset.range T,
          reward t * importanceWeight action pscore actionDist position t
            / mean T (importanceWeight action pscore actionDist position)) / T := rfl
    _ = ((∑ t ∈ Finset.range T,
          reward t * importanceWeight action pscore actionDist position t)
            / mean T (importanceWeight action pscore actionDist position)) / T := by
        rw [← Finset.sum_div]
    _ = (∑ t ∈ Finset.range T,
          reward t * importanceWeight action pscore actionDist position t)
          / (mean T (importanceWeight action pscore actionDist position) * T) := by
        rw [div_div]
    _ = _ := by rw [key]

/-- Witness for claim C5 at a concrete input with nonzero mean importance weight. -/
theorem claim_C5_witness :
    mean 1 (importanceWeight (fun _ => 0) (fun _ => 1) (fun _ _ _ => 1) (fun _ => 0)) ≠ 0
    ∧ ((∀ t, snipw_estimateRoundRewards 1 (fun _ => 1) (fun _ => 0) (fun _ => 1)
          (fun _ _ _ => 1) (fun _ => 0) t
        = (fun _ => (1 : ℚ)) t
          * importanceWeight (fun _ => 0) (fun _ => 1) (fun _ _ _ => 1) (fun _ => 0) t
          / mean 1 (importanceWeight (fun _ => 0) (fun _ => 1) (fun _ _ _ => 1) (fun _ => 0)))
      ∧ mean 1 (snipw_estimateRoundRewards 1 (fun _ => 1) (fun _ => 0) (fun _ => 1)
          (fun _ _ _ => 1) (fun _ => 0))
        = (∑ t ∈ Finset.range 1, (fun _ => (1 : ℚ)) t
            * importanceWeight (fun _ => 0) (fun _ => 1) (fun _ _ _ => 1) (fun _ => 0) t)
          / (∑ t ∈ Finset.range 1,
              importanceWeight (fun _ => 0) (fun _ => 1) (fun _ _ _ => 1) (fun _ => 0) t)) :=
  ⟨by norm_num [mean, importanceWeight],
    claim_C5_snipw_ratio_of_sums 1 (fun _ => 1) (fun _ => 0) (fun _ => 1)
      (fun _ _ _ => 1) (fun _ => 0) (by norm_num [mean, importanceWeight])⟩

/-- Claim C6: the Replay Method round-reward estimation returns the all-zero vector when
no round has `action_dist[t, action[t], position[t]] == 1` (no division is attempted),
and when at least one round matches, round `t` gets
`indicator(match at t) * reward[t] / (match count / T)`, i.e. the matched reward divided
by the match rate. -/
theorem claim_C6_rm_zero_match_guard (T : ℕ) (reward : ℕ → ℚ) (action : ℕ → ℕ)
    (actionDist : ℕ → ℕ → ℕ → ℚ) (position : ℕ → ℕ) :
    (rmMatchSum T action actionDist position = 0 →
      ∀ t, rm_estimateRoundRewards T reward action actionDist position t = 0)
    ∧ (0 < rmMatchSum T action actionDist position →
      ∀ t, rm_estimateRoundRewards T reward action actionDist position t
        = rmMatchIndicator action actionDist position t * reward t
          / (rmMatchSum T action actionDist position / T)) := by
  constructor
  · intro h t
    simp [rm_estimateRoundRewards, h]
  · intro h t
    simp [rm_estimateRoundRewards, h]

/-- Witness for claim C6: a one-round batch with no match (all-zero output) and a
one-round batch with a match (rescaled reward). -/
theorem claim_C6_witness :
    (rmMatchSum 1 (fun _ => 0) (fun _ _ _ => 0) (fun _ => 0) = 0
      ∧ rm_estimateRoundRewards 1 (fun _ => 5) (fun _ => 0) (fun _ _ _ => 0) (fun _ => 0) 0
        = 0)
    ∧ (0 < rmMatchSum 1 (fun _ => 0) (fun _ _ _ => 1) (fun _ => 0)
      ∧ rm_estimateRoundRewards 1 (fun _ => 5) (fun _ => 0) (fun _ _ _ => 1) (fun _ => 0) 0
        = rmMatchIndicator (fun _ => 0) (fun _ _ _ => 1) (fun _ => 0) 0 * 5
          / (rmMatchSum 1 (fun _ => 0) (fun _ _ _ => 1) (fun _ => 0) / 1)) := by
  have h0 : rmMatchSum 1 (fun _ => 0) (fun _ _ _ => 0) (fun _ => 0) = 0 := by
    norm_num [rmMatchSum, rmMatchIndicator]
  have h1 : 0 < rmMatchSum 1 (fun _ => 0) (fun _ _ _ => 1) (fun _ => 0) := by
    norm_num [rmMatchSum, rmMatchIndicator]
  exact ⟨⟨h0, (claim_C6_rm_zero_match_guard 1 (fun _ => 5) (fun _ => 0) (fun _ _ _ => 0)
      (fun _ => 0)).1 h0 0⟩,
    ⟨h1, (claim_C6_rm_zero_match_guard 1 (fun _ => 5) (fun _ => 0) (fun _ _ _ => 1)
      (fun _ => 0)).2 h1 0⟩⟩

/-- Claim C10: the private round-reward estimators of SNDR, Switch-DR and DRos perform no
position defaulting (an absent position leaves them undefined), while Replay Method, IPW,
SNIPW, DM, DR and Balanced IPW substitute the all-zeros position when `position` is
`None`. -/
theorem claim_C10_position_precondition (T nA : ℕ) (lam : Option ℚ) (reward : ℕ → ℚ)
    (action : ℕ → ℕ) (pscore rho : ℕ → ℚ) (actionDist qHat : ℕ → ℕ → ℕ → ℚ) :
    sndr_estimateRoundRewardsOpt T nA reward action pscore actionDist qHat none = none
    ∧ switchdr_estimateRoundRewardsOpt lam nA reward action pscore actionDist qHat none
      = none
    ∧ dros_estimateRoundRewardsOpt lam nA reward action pscore actionDist qHat none = none
    ∧ rm_estimateRoundRewardsOpt T reward action actionDist none
      = some (rm_estimateRoundRewards T reward action actionDist fun _ => 0)
    ∧ ipw_estimateRoundRewardsOpt lam reward action pscore actionDist none
      = some (ipw_estimateRoundRewards lam reward action pscore actionDist fun _ => 0)
    ∧ snipw_estimateRoundRewardsOpt T reward action pscore actionDist none
      = some (snipw_estimateRoundRewards T reward action pscore actionDist fun _ => 0)
    ∧ dm_estimateRoundRewardsOpt nA actionDist qHat none
      = some (dm_estimateRoundRewards nA actionDist qHat fun _ => 0)
    ∧ dr_estimateRoundRewardsOpt lam nA reward action pscore actionDist qHat none
      = some (dr_estimateRoundRewards lam nA reward action pscore actionDist qHat
          fun _ => 0)
    ∧ bipw_estimateRoundRewardsOpt lam T reward action rho actionDist none
      = some (bipw_estimateRoundRewards lam T reward action rho actionDist fun _ => 0) :=
  ⟨rfl, rfl, rfl, rfl, rfl, rfl, rfl, rfl, rfl⟩

/-- Claim C1: for every concrete estimator (RM, IPW, SNIPW, DM, DR, SNDR, Switch-DR,
DRos, Balanced IPW) and every input batch passing validation, `estimate_policy_value`
returns exactly the arithmetic mean of the vector returned by the estimator's
round-reward estimation on the same inputs, with `position` defaulted to all zeros when
absent. -/
theorem claim_C1_policy_value_is_mean (T nA nP : ℕ) (lam : Option ℚ) (useEst : Bool)
    (reward : ℕ → ℚ) (action : ℕ → ℕ) (rho : ℕ → ℚ) (ps eps : Option (ℕ → ℚ))
    (psc : ℕ → ℚ) (actionDist qHat : ℕ → ℕ → ℕ → ℚ) (position : Option (ℕ → ℕ))
    (hsel : (if useEst then eps else ps) = some psc)
    (hck : check_ope_inputs T nA nP actionDist position (some action) (some psc) none
      = true)
    (hckrm : check_ope_inputs T nA nP actionDist position (some action) none none = true)
    (hckdm : check_ope_inputs T nA nP actionDist position none none none = true) :
    rm_estimatePolicyValue T nA nP reward action actionDist position
      = some (mean T (rm_estimateRoundRewards T reward action actionDist
          (resolvePosition position)))
    ∧ ipw_estimatePolicyValue lam useEst T nA nP reward action ps eps actionDist position
      = some (mean T (ipw_estimateRoundRewards lam reward action psc actionDist
          (resolvePosition position)))
    ∧ snipw_estimatePolicyValue useEst T nA nP reward action ps eps actionDist position
      = some (mean T (snipw_estimateRoundRewards T reward action psc actionDist
          (resolvePosition position)))
    ∧ dm_estimatePolicyValue T nA nP actionDist qHat position
      = some (mean T (dm_estimateRoundRewards nA actionDist qHat
          (resolvePosition position)))
    ∧ dr_estimatePolicyValue lam useEst T nA nP reward action ps eps actionDist qHat
        position
      = some (mean T (dr_estimateRoundRewards lam nA reward action psc actionDist qHat
          (resolvePosition position)))
    ∧ sndr_estimatePolicyValue useEst T nA nP reward action ps eps actionDist qHat position
      = some (mean T (sndr_estimateRoundRewards T nA reward action psc actionDist qHat
          (resolvePosition position)))
    ∧ switchdr_estimatePolicyValue lam useEst T nA nP reward action ps eps actionDist qHat
        position
      = some (mean T (switchdr_estimateRoundRewards lam nA reward action psc actionDist
          qHat (resolvePosition position)))
    ∧ dros_estimatePolicyValue lam useEst T nA nP reward action ps eps actionDist qHat
        position
      = some (mean T (dros_estimateRoundRewards lam nA reward action psc actionDist qHat
          (resolvePosition position)))
    ∧ bipw_estimatePolicyValue lam T nA nP reward action rho actionDist position
      = some (mean T (bipw_estimateRoundRewards lam T reward action rho actionDist
          (resolvePosition position))) := by
  refine ⟨?_, ?_, ?_, ?_, ?_, ?_, ?_, ?_, rfl⟩
  · rw [rm_estimatePolicyValue, if_pos hckrm]
  · rw [ipw_estimatePolicyValue, pscoreFamilyPolicyValue, hsel]
    simp [hck]
  · rw [snipw_estimatePolicyValue, pscoreFamilyPolicyValue, hsel]
    simp [hck]
  · rw [dm_estimatePolicyValue, if_pos hckdm]
  · rw [dr_estimatePolicyValue, pscoreFamilyPolicyValue, hsel]
    simp [hck]
  · rw [sndr_estimatePolicyValue, pscoreFamilyPolicyValue, hsel]
    simp [hck]
  · rw [switchdr_estimatePolicyValue, pscoreFamilyPolicyValue, hsel]
    simp [hck]
  · rw [dros_estimatePolicyValue, pscoreFamilyPolicyValue, hsel]
    simp [hck]

/-- Witness for claim C1 at a concrete valid one-round batch. -/
theorem claim_C1_witness :
    ((if false then (none : Option (ℕ → ℚ)) else some fun _ => 1) = some fun _ => (1 : ℚ))
    ∧ check_ope_inputs 1 1 1 (fun _ _ _ => 1) none (some fun _ => 0) (some fun _ => 1)
        none = true
    ∧ check_ope_inputs 1 1 1 (fun _ _ _ => 1) none (some fun _ => 0) none none = true
    ∧ check_ope_inputs 1 1 1 (fun _ _ _ => 1) none none none none = true
    ∧ (rm_estimatePolicyValue 1 1 1 (fun _ => 1) (fun _ => 0) (fun _ _ _ => 1) none
        = some (mean 1 (rm_estimateRoundRewards 1 (fun _ => 1) (fun _ => 0)
            (fun _ _ _ => 1) (resolvePosition none)))
      ∧ ipw_estimatePolicyValue none false 1 1 1 (fun _ => 1) (fun _ => 0)
          (some fun _ => 1) none (fun _ _ _ => 1) none
        = some (mean 1 (ipw_estimateRoundRewards none (fun _ => 1) (fun _ => 0)
            (fun _ => 1) (fun _ _ _ => 1) (resolvePosition none)))
      ∧ snipw_estimatePolicyValue false 1 1 1 (fun _ => 1) (fun _ => 0) (some fun _ => 1)
          none (fun _ _ _ => 1) none
        = some (mean 1 (snipw_estimateRoundRewards 1 (fun _ => 1) (fun _ => 0)
            (fun _ => 1) (fun _ _ _ => 1) (resolvePosition none)))
      ∧ dm_estimatePolicyValue 1 1 1 (fun _ _ _ => 1) (fun _ _ _ => 1) none
        = some (mean 1 (dm_estimateRoundRewards 1 (fun _ _ _ => 1) (fun _ _ _ => 1)
            (resolvePosition none)))
      ∧ dr_estimatePolicyValue none false 1 1 1 (fun _ => 1) (fun _ => 0)
          (some fun _ => 1) none (fun _ _ _ => 1) (fun _ _ _ => 1) none
        = some (mean 1 (dr_estimateRoundRewards none 1 (fun _ => 1) (fun _ => 0)
            (fun _ => 1) (fun _ _ _ => 1) (fun _ _ _ => 1) (resolvePosition none)))
      ∧ sndr_estimatePolicyValue false 1 1 1 (fun _ => 1) (fun _ => 0) (some fun _ => 1)
          none (fun _ _ _ => 1) (fun _ _ _ => 1) none
        = some (mean 1 (sndr_estimateRoundRewards 1 1 (fun _ => 1) (fun _ => 0)
            (fun _ => 1) (fun _ _ _ => 1) (fun _ _ _ => 1) (resolvePosition none)))
      ∧ switchdr_estimatePolicyValue none false 1 1 1 (fun _ => 1) (fun _ => 0)
          (some fun _ => 1) none (fun _ _ _ => 1) (fun _ _ _ => 1) none
        = some (mean 1 (switchdr_estimateRoundRewards none 1 (fun _ => 1) (fun _ => 0)
            (fun _ => 1) (fun _ _ _ => 1) (fun _ _ _ => 1) (resolvePosition none)))
      ∧ dros_estimatePolicyValue none false 1 1 1 (fun _ => 1) (fun _ => 0)
          (some fun _ => 1) none (fun _ _ _ => 1) (fun _ _ _ => 1) none
        = some (mean 1 (dros_estimateRoundRewards none 1 (fun _ => 1) (fun _ => 0)
            (fun _ => 1) (fun _ _ _ => 1) (fun _ _ _ => 1) (resolvePosition none)))
      ∧ bipw_estimatePolicyValue none 1 1 1 (fun _ => 1) (fun _ => 0) (fun _ => 1)
          (fun _ _ _ => 1) none
        = some (mean 1 (bipw_estimateRoundRewards none 1 (fun _ => 1) (fun _ => 0)
            (fun _ => 1) (fun _ _ _ => 1) (resolvePosition none)))) :=
  ⟨rfl,
    by norm_num [check_ope_inputs, List.range_succ, Finset.sum_range_succ],
    by norm_num [check_ope_inputs, List.range_succ, Finset.sum_range_succ],
    by norm_num [check_ope_inputs, List.range_succ, Finset.sum_range_succ],
    claim_C1_policy_value_is_mean 1 1 1 none false (fun _ => 1) (fun _ => 0) (fun _ => 1)
      (some fun _ => 1) none (fun _ => 1) (fun _ _ _ => 1) (fun _ _ _ => 1) none rfl
      (by norm_num [check_ope_inputs, List.range_succ, Finset.sum_range_succ])
      (by norm_num [check_ope_inputs, List.range_succ, Finset.sum_range_succ])
      (by norm_num [check_ope_inputs, List.range_succ, Finset.sum_range_succ])⟩

/-- Counterexample to claim C7: constructing Switch-DR or DRos with a valid `lambda_`
and a non-boolean `use_estimated_pscore` (here the string "x") succeeds — their
overriding `__post_init__` methods never inspect `use_estimated_pscore`, so no error is
raised at construction time. -/
theorem claim_C7_counterexample :
    switchdr_postInit (PyVal.float 1) (PyVal.str ("x")) = true
    ∧ dros_postInit (PyVal.float 1) (PyVal.str ("x")) = true := by
  constructor <;>
    norm_num [switchdr_postInit, dros_postInit, checkScalarLambda, isNumeric, pyLt0,
      isNanVal]

/-- Claim C7 as amended: every hyperparameter-taking estimator rejects a `lambda_` that
is non-numeric, negative, or NaN at construction; IPW and DR (hence SNIPW and SNDR,
which inherit their `__post_init__`) additionally reject a non-boolean
`use_estimated_pscore`; Switch-DR and DRos do not validate `use_estimated_pscore` at
all — construction behaves identically whatever its value. -/
theorem claim_C7_amended_construction_validation :
    (∀ v u : PyVal,
      (isNumeric v = false ∨ pyLt0 v = true ∨ isNanVal v = true) →
      ipw_postInit v u = false ∧ dr_postInit v u = false
        ∧ switchdr_postInit v u = false ∧ dros_postInit v u = false
        ∧ bipw_postInit v = false)
    ∧ (∀ v u : PyVal, isPyBool u = false →
      ipw_postInit v u = false ∧ dr_postInit v u = false)
    ∧ (∀ v u : PyVal,
      switchdr_postInit v u = switchdr_postInit v (PyVal.bool false)
        ∧ dros_postInit v u = dros_postInit v (PyVal.bool false)) := by
  refine ⟨?_, ?_, ?_⟩
  · rintro v u (h | h | h) <;>
      simp [ipw_postInit, dr_postInit, switchdr_postInit, dros_postInit, bipw_postInit,
        checkScalarLambda, h]
  · intro v u h
    simp [ipw_postInit, dr_postInit, h]
  · intro v u
    exact ⟨rfl, rfl⟩

/-- Witness for the amended claim C7 at concrete hyperparameter values. -/
theorem claim_C7_amended_witness :
    (isNumeric (PyVal.str ("a")) = false ∨ pyLt0 (PyVal.str ("a")) = true
      ∨ isNanVal (PyVal.str ("a")) = true)
    ∧ (ipw_postInit (PyVal.str ("a")) (PyVal.bool false) = false
      ∧ dr_postInit (PyVal.str ("a")) (PyVal.bool false) = false
      ∧ switchdr_postInit (PyVal.str ("a")) (PyVal.bool false) = false
      ∧ dros_postInit (PyVal.str ("a")) (PyVal.bool false) = false
      ∧ bipw_postInit (PyVal.str ("a")) = false)
    ∧ isPyBool (PyVal.int 0) = false
    ∧ (ipw_postInit (PyVal.float 1) (PyVal.int 0) = false
      ∧ dr_postInit (PyVal.float 1) (PyVal.int 0) = false)
    ∧ (switchdr_postInit (PyVal.float 1) (PyVal.int 0)
        = switchdr_postInit (PyVal.float 1) (PyVal.bool false)
      ∧ dros_postInit (PyVal.float 1) (PyVal.int 0)
        = dros_postInit (PyVal.float 1) (PyVal.bool false)) :=
  ⟨Or.inl rfl,
    claim_C7_amended_construction_validation.1 (PyVal.str ("a")) (PyVal.bool false)
      (Or.inl rfl),
    rfl,
    claim_C7_amended_construction_validation.2.1 (PyVal.float 1) (PyVal.int 0) rfl,
    claim_C7_amended_construction_validation.2.2 (PyVal.float 1) (PyVal.int 0)⟩

/-- Claim C8, as the code actually behaves: when the caller omits
`n_bootstrap_samples`, every estimator's `estimate_interval` hands the bootstrap helper
10000 resamples — except `ReplayMethod`, whose signature default is 100 (its own
docstring nevertheless documents `default=10000`). -/
theorem claim_C8_interval_bootstrap_defaults (T nA nP : ℕ) (lam : Option ℚ)
    (useEst : Bool) (reward : ℕ → ℚ) (action : ℕ → ℕ) (rho : ℕ → ℚ)
    (ps eps : Option (ℕ → ℚ)) (psc : ℕ → ℚ) (actionDist qHat : ℕ → ℕ → ℕ → ℚ)
    (position : Option (ℕ → ℕ))
    (hsel : (if useEst then eps else ps) = some psc)
    (hck : check_ope_inputs T nA nP actionDist position (some action) (some psc) none
      = true)
    (hckrm : check_ope_inputs T nA nP actionDist position (some action) none none = true)
    (hckdm : check_ope_inputs T nA nP actionDist position none none none = true)
    (hckbipw : check_ope_inputs T nA nP actionDist position (some action) none (some rho)
      = true) :
    rm_estimateInterval T nA nP reward action actionDist position none none
      = some { samples := rm_estimateRoundRewards T reward action actionDist
                 (resolvePosition position)
               sampleSize := T, alpha := 1 / 20, nBootstrap := 100 }
    ∧ ipw_estimateInterval lam useEst T nA nP reward action ps eps actionDist position
        none none
      = some { samples := ipw_estimateRoundRewards lam reward action psc actionDist
                 (resolvePosition position)
               sampleSize := T, alpha := 1 / 20, nBootstrap := 10000 }
    ∧ snipw_estimateInterval useEst T nA nP reward action ps eps actionDist position
        none none
      = some { samples := snipw_estimateRoundRewards T reward action psc actionDist
                 (resolvePosition position)
               sampleSize := T, alpha := 1 / 20, nBootstrap := 10000 }
    ∧ dm_estimateInterval T nA nP actionDist qHat position none none
      = some { samples := dm_estimateRoundRewards nA actionDist qHat
                 (resolvePosition position)
               sampleSize := T, alpha := 1 / 20, nBootstrap := 10000 }
    ∧ dr_estimateInterval lam useEst T nA nP reward action ps eps actionDist qHat position
        none none
      = some { samples := dr_estimateRoundRewards lam nA reward action psc actionDist
                 qHat (resolvePosition position)
               sampleSize := T, alpha := 1 / 20, nBootstrap := 10000 }
    ∧ sndr_estimateInterval useEst T nA nP reward action ps eps actionDist qHat position
        none none
      = some { samples := sndr_estimateRoundRewards T nA reward action psc actionDist
                 qHat (resolvePosition position)
               sampleSize := T, alpha := 1 / 20, nBootstrap := 10000 }
    ∧ switchdr_estimateInterval lam useEst T nA nP reward action ps eps actionDist qHat
        position none none
      = some { samples := switchdr_estimateRoundRewards lam nA reward action psc
                 actionDist qHat (resolvePosition position)
               sampleSize := T, alpha := 1 / 20, nBootstrap := 10000 }
    ∧ dros_estimateInterval lam useEst T nA nP reward action ps eps actionDist qHat
        position none none
      = some { samples := dros_estimateRoundRewards lam nA reward action psc actionDist
                 qHat (resolvePosition position)
               sampleSize := T, alpha := 1 / 20, nBootstrap := 10000 }
    ∧ bipw_estimateInterval lam T nA nP reward action rho actionDist position none none
      = some { samples := bipw_estimateRoundRewards lam T reward action rho actionDist
                 (resolvePosition position)
               sampleSize := T, alpha := 1 / 20, nBootstrap := 10000 } := by
  refine ⟨?_, ?_, ?_, ?_, ?_, ?_, ?_, ?_, ?_⟩
  · rw [rm_estimateInterval, if_pos hckrm]
    rfl
  · rw [ipw_estimateInterval, pscoreFamilyInterval, hsel]
    simp [hck]
  · rw [snipw_estimateInterval, pscoreFamilyInterval, hsel]
    simp [hck]
  · rw [dm_estimateInterval, if_pos hckdm]
    rfl
  · rw [dr_estimateInterval, pscoreFamilyInterval, hsel]
    simp [hck]
  · rw [sndr_estimateInterval, pscoreFamilyInterval, hsel]
    simp [hck]
  · rw [switchdr_estimateInterval, pscoreFamilyInterval, hsel]
    simp [hck]
  · rw [dros_estimateInterval, pscoreFamilyInterval, hsel]
    simp [hck]
  · rw [bipw_estimateInterval, if_pos hckbipw]
    rfl

/-- Witness for claim C8 at a concrete valid one-round batch. -/
theorem claim_C8_witness :
    ((if false then (none : Option (ℕ → ℚ)) else some fun _ => 1) = some fun _ => (1 : ℚ))
    ∧ check_ope_inputs 1 1 1 (fun _ _ _ => 1) none (some fun _ => 0) (some fun _ => 1)
        none = true
    ∧ check_ope_inputs 1 1 1 (fun _ _ _ => 1) none (some fun _ => 0) none none = true
    ∧ check_ope_inputs 1 1 1 (fun _ _ _ => 1) none none none none = true
    ∧ check_ope_inputs 1 1 1 (fun _ _ _ => 1) none (some fun _ => 0) none
        (some fun _ => 1) = true
    ∧ (rm_estimateInterval 1 1 1 (fun _ => 1) (fun _ => 0) (fun _ _ _ => 1) none none none
        = some { samples := rm_estimateRoundRewards 1 (fun _ => 1) (fun _ => 0)
                   (fun _ _ _ => 1) (resolvePosition none)
                 sampleSize := 1, alpha := 1 / 20, nBootstrap := 100 }
      ∧ ipw_estimateInterval none false 1 1 1 (fun _ => 1) (fun _ => 0) (some fun _ => 1)
          none (fun _ _ _ => 1) none none none
        = some { samples := ipw_estimateRoundRewards none (fun _ => 1) (fun _ => 0)
                   (fun _ => 1) (fun _ _ _ => 1) (resolvePosition none)
                 sampleSize := 1, alpha := 1 / 20, nBootstrap := 10000 }
      ∧ snipw_estimateInterval false 1 1 1 (fun _ => 1) (fun _ => 0) (some fun _ => 1)
          none (fun _ _ _ => 1) none none none
        = some { samples := snipw_estimateRoundRewards 1 (fun _ => 1) (fun _ => 0)
                   (fun _ => 1) (fun _ _ _ => 1) (resolvePosition none)
                 sampleSize := 1, alpha := 1 / 20, nBootstrap := 10000 }
      ∧ dm_estimateInterval 1 1 1 (fun _ _ _ => 1) (fun _ _ _ => 1) none none none
        = some { samples := dm_estimateRoundRewards 1 (fun _ _ _ => 1) (fun _ _ _ => 1)
                   (resolvePosition none)
                 sampleSize := 1, alpha := 1 / 20, nBootstrap := 10000 }
      ∧ dr_estimateInterval none false 1 1 1 (fun _ => 1) (fun _ => 0) (some fun _ => 1)
          none (fun _ _ _ => 1) (fun _ _ _ => 1) none none none
        = some { samples := dr_estimateRoundRewards none 1 (fun _ => 1) (fun _ => 0)
                   (fun _ => 1) (fun _ _ _ => 1) (fun _ _ _ => 1) (resolvePosition none)
                 sampleSize := 1, alpha := 1 / 20, nBootstrap := 10000 }
      ∧ sndr_estimateInterval false 1 1 1 (fun _ => 1) (fun _ => 0) (some fun _ => 1)
          none (fun _ _ _ => 1) (fun _ _ _ => 1) none none none
        = some { samples := sndr_estimateRoundRewards 1 1 (fun _ => 1) (fun _ => 0)
                   (fun _ => 1) (fun _ _ _ => 1) (fun _ _ _ => 1) (resolvePosition none)
                 sampleSize := 1, alpha := 1 / 20, nBootstrap := 10000 }
      ∧ switchdr_estimateInterval none false 1 1 1 (fun _ => 1) (fun _ => 0)
          (some fun _ => 1) none (fun _ _ _ => 1) (fun _ _ _ => 1) none none none
        = some { samples := switchdr_estimateRoundRewards none 1 (fun _ => 1)
                   (fun _ => 0) (fun _ => 1) (fun _ _ _ => 1) (fun _ _ _ => 1)
                   (resolvePosition none)
                 sampleSize := 1, alpha := 1 / 20, nBootstrap := 10000 }
      ∧ dros_estimateInterval none false 1 1 1 (fun _ => 1) (fun _ => 0)
          (some fun _ => 1) none (fun _ _ _ => 1) (fun _ _ _ => 1) none none none
        = some { samples := dros_estimateRoundRewards none 1 (fun _ => 1) (fun _ => 0)
                   (fun _ => 1) (fun _ _ _ => 1) (fun _ _ _ => 1) (resolvePosition none)
                 sampleSize := 1, alpha := 1 / 20, nBootstrap := 10000 }
      ∧ bipw_estimateInterval none 1 1 1 (fun _ => 1) (fun _ => 0) (fun _ => 1)
          (fun _ _ _ => 1) none none none
        = some { samples := bipw_estimateRoundRewards none 1 (fun _ => 1) (fun _ => 0)
                   (fun _ => 1) (fun _ _ _ => 1) (resolvePosition none)
                 sampleSize := 1, alpha := 1 / 20, nBootstrap := 10000 }) :=
  ⟨rfl,
    by norm_num [check_ope_inputs, List.range_succ, Finset.sum_range_succ],
    by norm_num [check_ope_inputs, List.range_succ, Finset.sum_range_succ],
    by norm_num [check_ope_inputs, List.range_succ, Finset.sum_range_succ],
    by norm_num [check_ope_inputs, List.range_succ, Finset.sum_range_succ],
    claim_C8_interval_bootstrap_defaults 1 1 1 none false (fun _ => 1) (fun _ => 0)
      (fun _ => 1) (some fun _ => 1) none (fun _ => 1) (fun _ _ _ => 1) (fun _ _ _ => 1)
      none rfl
      (by norm_num [check_ope_inputs, List.range_succ, Finset.sum_range_succ])
      (by norm_num [check_ope_inputs, List.range_succ, Finset.sum_range_succ])
      (by norm_num [check_ope_inputs, List.range_succ, Finset.sum_range_succ])
      (by norm_num [check_ope_inputs, List.range_succ, Finset.sum_range_succ])⟩

/-- A batch whose `action_dist` has a slice `[t, :, p]` not summing to 1 fails
`check_ope_inputs`, whatever else is supplied. -/
lemma check_ope_inputs_false_of_bad_slice (T nA nP : ℕ) (actionDist : ℕ → ℕ → ℕ → ℚ)
    (position : Option (ℕ → ℕ)) (action : Option (ℕ → ℕ))
    (pscore rho : Option (ℕ → ℚ)) (t p : ℕ) (ht : t < T) (hp : p < nP)
    (hbad : (∑ a ∈ Finset.range nA, actionDist t a p) ≠ 1) :
    check_ope_inputs T nA nP actionDist position action pscore rho = false := by
  rw [Bool.eq_false_iff]
  intro h
  simp only [check_ope_inputs, Bool.and_eq_true, List.all_eq_true, List.mem_range,
    decide_eq_true_eq] at h
  exact hbad (h.2 t ht p hp).1

/-- Counterexample to claim C9: on a malformed batch whose `action_dist` slice sums to 2
(which `check_ope_inputs` rejects), `BalancedInverseProbabilityWeighting`'s
`estimate_policy_value` — which never calls `check_ope_inputs` — still returns the
scalar 1 instead of raising. -/
theorem claim_C9_counterexample :
    check_ope_inputs 1 1 1 (fun _ _ _ => 2) none (some fun _ => 0) none none = false
    ∧ bipw_estimatePolicyValue none 1 1 1 (fun _ => 1) (fun _ => 0) (fun _ => 1)
        (fun _ _ _ => 2) none = some 1 := by
  constructor
  · exact check_ope_inputs_false_of_bad_slice 1 1 1 _ _ _ _ _ 0 0 one_pos one_pos
      (by norm_num [Finset.sum_range_succ])
  · norm_num [bipw_estimatePolicyValue, bipw_estimateRoundRewards, bipwClippedWeight,
      clipMin, mean, resolvePosition, Finset.sum_range_succ]

/-- Claim C9 as amended: `estimate_policy_value` raises on malformed input before any
estimate is computed for every estimator except Balanced IPW — whose
`estimate_interval` does validate via `check_ope_inputs`, but whose
`estimate_policy_value` only checks array ranks and returns the mean unconditionally. -/
theorem claim_C9_amended_fail_fast (T nA nP : ℕ) (lam : Option ℚ) (useEst : Bool)
    (reward : ℕ → ℚ) (action : ℕ → ℕ) (rho : ℕ → ℚ) (ps eps : Option (ℕ → ℚ))
    (psc : ℕ → ℚ) (actionDist qHat : ℕ → ℕ → ℕ → ℚ) (position : Option (ℕ → ℕ))
    (alpha : Option ℚ) (nb : Option ℕ) :
    (check_ope_inputs T nA nP actionDist position (some action) none none = false →
      rm_estimatePolicyValue T nA nP reward action actionDist position = none)
    ∧ ((if useEst then eps else ps) = some psc →
      check_ope_inputs T nA nP actionDist position (some action) (some psc) none
        = false →
      ipw_estimatePolicyValue lam useEst T nA nP reward action ps eps actionDist position
        = none
      ∧ snipw_estimatePolicyValue useEst T nA nP reward action ps eps actionDist position
        = none
      ∧ dr_estimatePolicyValue lam useEst T nA nP reward action ps eps actionDist qHat
          position = none
      ∧ sndr_estimatePolicyValue useEst T nA nP reward action ps eps actionDist qHat
          position = none
      ∧ switchdr_estimatePolicyValue lam useEst T nA nP reward action ps eps actionDist
          qHat position = none
      ∧ dros_estimatePolicyValue lam useEst T nA nP reward action ps eps actionDist qHat
          position = none)
    ∧ (check_ope_inputs T nA nP actionDist position none none none = false →
      dm_estimatePolicyValue T nA nP actionDist qHat position = none)
    ∧ (check_ope_inputs T nA nP actionDist position (some action) none (some rho)
        = false →
      bipw_estimateInterval lam T nA nP reward action rho actionDist position alpha nb
        = none)
    ∧ bipw_estimatePolicyValue lam T nA nP reward action rho actionDist position
      = some (mean T (bipw_estimateRoundRewards lam T reward action rho actionDist
          (resolvePosition position))) := by
  refine ⟨?_, ?_, ?_, ?_, rfl⟩
  · intro h
    simp [rm_estimatePolicyValue, h]
  · intro hsel h
    refine ⟨?_, ?_, ?_, ?_, ?_, ?_⟩
    · simp [ipw_estimatePolicyValue, pscoreFamilyPolicyValue, hsel, h]
    · simp [snipw_estimatePolicyValue, pscoreFamilyPolicyValue, hsel, h]
    · simp [dr_estimatePolicyValue, pscoreFamilyPolicyValue, hsel, h]
    · simp [sndr_estimatePolicyValue, pscoreFamilyPolicyValue, hsel, h]
    · simp [switchdr_estimatePolicyValue, pscoreFamilyPolicyValue, hsel, h]
    · simp [dros_estimatePolicyValue, pscoreFamilyPolicyValue, hsel, h]
  · intro h
    simp [dm_estimatePolicyValue, h]
  · intro h
    simp [bipw_estimateInterval, h]

/-- Witness for the amended claim C9 at a concrete malformed batch (an `action_dist`
slice summing to 2): the validating entry points all raise while Balanced IPW's
`estimate_policy_value` still produces the mean. -/
theorem claim_C9_amended_witness :
    ((if false then (none : Option (ℕ → ℚ)) else some fun _ => 1) = some fun _ => (1 : ℚ))
    ∧ check_ope_inputs 1 1 1 (fun _ _ _ => 2) none (some fun _ => 0) none none = false
    ∧ check_ope_inputs 1 1 1 (fun _ _ _ => 2) none (some fun _ => 0) (some fun _ => 1)
        none = false
    ∧ check_ope_inputs 1 1 1 (fun _ _ _ => 2) none none none none = false
    ∧ check_ope_inputs 1 1 1 (fun _ _ _ => 2) none (some fun _ => 0) none
        (some fun _ => 1) = false
    ∧ rm_estimatePolicyValue 1 1 1 (fun _ => 1) (fun _ => 0) (fun _ _ _ => 2) none = none
    ∧ (ipw_estimatePolicyValue none false 1 1 1 (fun _ => 1) (fun _ => 0)
        (some fun _ => 1) none (fun _ _ _ => 2) none = none
      ∧ snipw_estimatePolicyValue false 1 1 1 (fun _ => 1) (fun _ => 0) (some fun _ => 1)
          none (fun _ _ _ => 2) none = none
      ∧ dr_estimatePolicyValue none false 1 1 1 (fun _ => 1) (fun _ => 0)
          (some fun _ => 1) none (fun _ _ _ => 2) (fun _ _ _ => 1) none = none
      ∧ sndr_estimatePolicyValue false 1 1 1 (fun _ => 1) (fun _ => 0) (some fun _ => 1)
          none (fun _ _ _ => 2) (fun _ _ _ => 1) none = none
      ∧ switchdr_estimatePolicyValue none false 1 1 1 (fun _ => 1) (fun _ => 0)
          (some fun _ => 1) none (fun _ _ _ => 2) (fun _ _ _ => 1) none = none
      ∧ dros_estimatePolicyValue none false 1 1 1 (fun _ => 1) (fun _ => 0)
          (some fun _ => 1) none (fun _ _ _ => 2) (fun _ _ _ => 1) none = none)
    ∧ dm_estimatePolicyValue 1 1 1 (fun _ _ _ => 2) (fun _ _ _ => 1) none = none
    ∧ bipw_estimateInterval none 1 1 1 (fun _ => 1) (fun _ => 0) (fun _ => 1)
        (fun _ _ _ => 2) none none none = none
    ∧ bipw_estimatePolicyValue none 1 1 1 (fun _ => 1) (fun _ => 0) (fun _ => 1)
        (fun _ _ _ => 2) none
      = some (mean 1 (bipw_estimateRoundRewards none 1 (fun _ => 1) (fun _ => 0)
          (fun _ => 1) (fun _ _ _ => 2) (resolvePosition none))) := by
  have hbad : (∑ a ∈ Finset.range 1, (2 : ℚ)) ≠ 1 := by
    norm_num [Finset.sum_range_succ]
  have h1 : check_ope_inputs 1 1 1 (fun _ _ _ => 2) none (some fun _ => 0) none none
      = false :=
    check_ope_inputs_false_of_bad_slice 1 1 1 _ _ _ _ _ 0 0 one_pos one_pos hbad
  have h2 : check_ope_inputs 1 1 1 (fun _ _ _ => 2) none (some fun _ => 0)
      (some fun _ => 1) none = false :=
    check_ope_inputs_false_of_bad_slice 1 1 1 _ _ _ _ _ 0 0 one_pos one_pos hbad
  have h3 : check_ope_inputs 1 1 1 (fun _ _ _ => 2) none none none none = false :=
    check_ope_inputs_false_of_bad_slice 1 1 1 _ _ _ _ _ 0 0 one_pos one_pos hbad
  have h4 : check_ope_inputs 1 1 1 (fun _ _ _ => 2) none (some fun _ => 0) none
      (some fun _ => 1) = false :=
    check_ope_inputs_false_of_bad_slice 1 1 1 _ _ _ _ _ 0 0 one_pos one_pos hbad
  have main := claim_C9_amended_fail_fast 1 1 1 none false (fun _ => 1) (fun _ => 0)
    (fun _ => 1) (some fun _ => 1) none (fun _ => 1) (fun _ _ _ => 2) (fun _ _ _ => 1)
    none none none
  exact ⟨rfl, h1, h2, h3, h4, main.1 h1, main.2.1 rfl h2, main.2.2.1 h3,
    main.2.2.2.1 h4, main.2.2.2.2⟩

end Obp
